import Mathlib

/-!
Verification of `calendar_server.py` (MCPBookings): a Flask relay that
forwards scheduling requests to the Google Calendar API using a stored
OAuth2 token.  The Python handlers are shallowly embedded as pure Lean
functions: the filesystem (the `token.json` file) is passed as explicit
state, and the external calendar/network operations (`creds.refresh`,
`events().insert`, `flow.fetch_token`) are function parameters describing
the environment's behaviour.  External insert invocations are recorded in
an explicit trace so that "exactly one call" claims can be stated.
-/

namespace CalendarServer

/-- Python truthiness for an optional string: `None` and `""` are falsy.
Mirrors `if not start_time`, `if not code`, `creds.refresh_token` tests. -/
def pyFalsy : Option String → Bool
  | none => true
  | some s => s.isEmpty

/-- The fields of a loaded `google.oauth2.credentials.Credentials` object
that `get_calendar_service` inspects (`creds.valid`, `creds.expired`,
`creds.refresh_token`). -/
structure Credentials where
  valid : Bool
  expired : Bool
  refresh_token : Option String
deriving Repr, DecidableEq

/-- Filesystem state seen by `get_calendar_service`: the parsed contents of
`token.json` when the file exists (`os.path.exists` + `from_authorized_user_file`),
`none` when it does not. -/
structure FS where
  tokenFile : Option Credentials
deriving Repr, DecidableEq

/-- The message of the exception raised at line 36 of `calendar_server.py`. -/
def authRequiredMsg : String :=
  "Authentication required. Please run the local auth flow first."

/-- Embedding of `get_calendar_service` (lines 23-39).  `refresh` models
`creds.refresh(Request())`: given the loaded credentials it returns the
refreshed credentials, or the message of the exception it raised.  The
result pairs the outcome (the credentials handed to `build`, standing for
the service handle, or the raised message) with the filesystem state after
the call; the function body performs no write, so the state is returned
as received. -/
def get_calendar_service (fs : FS)
    (refresh : Credentials → Except String Credentials) :
    Except String Credentials × FS :=
  let creds := fs.tokenFile
  let result : Except String Credentials :=
    match creds with
    | none => Except.error authRequiredMsg
    | some c =>
      if c.valid then Except.ok c
      else if c.expired && !pyFalsy c.refresh_token then refresh c
      else Except.error authRequiredMsg
  (result, fs)

/-- JSON values, used for the event body sent to the API and for the
response bodies produced by `jsonify`. -/
inductive JVal where
  | null
  | bool (b : Bool)
  | num (n : Int)
  | str (s : String)
  | arr (elems : List JVal)
  | obj (fields : List (String × JVal))
deriving Repr

/-- Field lookup on a JSON object, defaulting to `null`: Python
`event.get(key)` on a dict (absent key gives `None`, serialized as null). -/
def jGet (v : JVal) (key : String) : JVal :=
  match v with
  | JVal.obj fields => lookupField fields key
  | _ => JVal.null
where
  lookupField : List (String × JVal) → String → JVal
    | [], _ => JVal.null
    | (k, w) :: rest, key => if k == key then w else lookupField rest key

/-- The body `{"error": msg}` produced by `jsonify({"error": ...})`. -/
def jsonError (msg : String) : JVal := JVal.obj [("error", JVal.str msg)]

/-- An HTTP response: status code and JSON (or plain-text, as `str`) body. -/
structure Response where
  status : Nat
  body : JVal
deriving Repr

/-- The parsed JSON payload of a `/schedule-appointment` request, as read by
`data.get('summary', ...)`, `data.get('start_time')`, `data.get('end_time')`:
`none` means the key is absent. -/
structure SchedulingRequest where
  summary : Option String
  start_time : Option String
  end_time : Option String
deriving Repr

/-- Outcome of `service.events().insert(...).execute()`: the created event
resource, an `HttpError` whose decoded content is `content`, or any other
exception whose `str` form is `msg`. -/
inductive InsertOutcome where
  | created (event : JVal)
  | httpError (content : String)
  | otherError (msg : String)
deriving Repr

/-- The event body built at lines 114-133 of `calendar_server.py`. -/
def buildEvent (summary start_time end_time : String) : JVal :=
  JVal.obj [
    ("summary", JVal.str summary),
    ("location", JVal.str "Client Call"),
    ("description", JVal.str "Scheduled by AdiuvansAI Agent."),
    ("start", JVal.obj [
      ("dateTime", JVal.str start_time),
      ("timeZone", JVal.str "America/New_York")]),
    ("end", JVal.obj [
      ("dateTime", JVal.str end_time),
      ("timeZone", JVal.str "America/New_York")]),
    ("reminders", JVal.obj [
      ("useDefault", JVal.bool false),
      ("overrides", JVal.arr [
        JVal.obj [("method", JVal.str "email"), ("minutes", JVal.num (24 * 60))],
        JVal.obj [("method", JVal.str "popup"), ("minutes", JVal.num 10)]])])]

/-- Embedding of the `/schedule-appointment` handler (lines 93-148).
`insert` models `service.events().insert(calendarId, body).execute()`.
The second component of the result is the trace of insert invocations,
in order, each recorded as `(calendarId, body)`. -/
def schedule_appointment (data : SchedulingRequest) (fs : FS)
    (refresh : Credentials → Except String Credentials)
    (insert : String → JVal → InsertOutcome) :
    Response × List (String × JVal) :=
  let summary := data.summary.getD "New AI Agent Consultation"
  let calendar_id := "primary"
  match data.start_time, data.end_time with
  | some st, some et =>
    if st.isEmpty || et.isEmpty then
      (⟨400, jsonError "Missing start_time or end_time."⟩, [])
    else
      match (get_calendar_service fs refresh).1 with
      | Except.error e => (⟨500, jsonError e⟩, [])
      | Except.ok _service =>
        let event := buildEvent summary st et
        match insert calendar_id event with
        | InsertOutcome.created ev =>
          (⟨200, JVal.obj [
            ("status", JVal.str "success"),
            ("message", JVal.str "Appointment scheduled successfully."),
            ("event_link", jGet ev "htmlLink")]⟩, [(calendar_id, event)])
        | InsertOutcome.httpError content =>
          (⟨500, jsonError ("Google Calendar API Error: " ++ content)⟩,
            [(calendar_id, event)])
        | InsertOutcome.otherError msg =>
          (⟨500, jsonError msg⟩, [(calendar_id, event)])
  | _, _ => (⟨400, jsonError "Missing start_time or end_time."⟩, [])

/-- Filesystem state seen by the OAuth callback: the raw contents of
`token.json` (the callback writes `flow.credentials.to_json()` verbatim). -/
structure CbFS where
  tokenFileStr : Option String
deriving Repr, DecidableEq

/-- The success page returned by `oauth2callback_render` (line 87). -/
def callbackSuccessMsg : String :=
  "Authentication successful! The token.json file has been created. You can now download this file from Render and upload its content as an environment variable."

/-- Embedding of `oauth2callback_render` (lines 64-89).  `code` is
`request.args.get('code')`; `fetchToken` models `flow.fetch_token(code)`
followed by `flow.credentials.to_json()`: it returns the token JSON to
persist, or the message of the exception raised by the exchange.  The
result is the HTTP response, the filesystem state after the call, and
whether a token exchange was performed. -/
def oauth2callback_render (code : Option String)
    (fetchToken : String → Except String String) (fs : CbFS) :
    Response × CbFS × Bool :=
  match code with
  | none => (⟨400, JVal.str "Authorization code not found."⟩, fs, false)
  | some c =>
    if c.isEmpty then (⟨400, JVal.str "Authorization code not found."⟩, fs, false)
    else
      match fetchToken c with
      | Except.ok tokJson => (⟨200, JVal.str callbackSuccessMsg⟩, ⟨some tokJson⟩, true)
      | Except.error e => (⟨500, jsonError ("Failed to get token: " ++ e)⟩, fs, true)

/-- Helper: whenever `start_time` or `end_time` is missing or empty, the
handler returns the fixed 400 response and makes no insert call. -/
theorem missing_field_response (data : SchedulingRequest) (fs : FS)
    (refresh : Credentials → Except String Credentials)
    (insert : String → JVal → InsertOutcome)
    (h : pyFalsy data.start_time = true ∨ pyFalsy data.end_time = true) :
    schedule_appointment data fs refresh insert =
      (⟨400, jsonError "Missing start_time or end_time."⟩, []) := by
  obtain ⟨summ, st, et⟩ := data
  cases st with
  | none => cases et <;> rfl
  | some s1 =>
    cases et with
    | none => rfl
    | some s2 =>
      simp only [pyFalsy] at h
      simp only [schedule_appointment]
      rcases h with h | h <;> simp [h]

/-- Whether `get_calendar_service` has no valid token to load and cannot
take the refresh branch: the token file is absent, or the loaded
credentials are invalid and either not expired or without a (truthy)
refresh token. -/
def noValidNoRefresh (fs : FS) : Prop :=
  fs.tokenFile = none ∨
    ∃ c, fs.tokenFile = some c ∧ c.valid = false ∧
      (c.expired = false ∨ pyFalsy c.refresh_token = true)

/-- C1: a `/schedule-appointment` request whose body lacks `start_time` or
`end_time` gets the fixed 400 error response and the external insert
operation is never invoked (the insert trace is empty). -/
theorem C1_missing_time_400 (data : SchedulingRequest) (fs : FS)
    (refresh : Credentials → Except String Credentials)
    (insert : String → JVal → InsertOutcome)
    (h : data.start_time = none ∨ data.end_time = none) :
    schedule_appointment data fs refresh insert =
      (⟨400, jsonError "Missing start_time or end_time."⟩, []) := by
  apply missing_field_response
  rcases h with h | h
  · exact Or.inl (by rw [h]; rfl)
  · exact Or.inr (by rw [h]; rfl)

/-- Witness for C1 at a concrete request lacking both time fields. -/
theorem C1_missing_time_400_witness :
    schedule_appointment ⟨some "Consult", none, none⟩ ⟨none⟩ Except.ok
        (fun _ _ => InsertOutcome.otherError "net") =
      (⟨400, jsonError "Missing start_time or end_time."⟩, []) :=
  C1_missing_time_400 ⟨some "Consult", none, none⟩ ⟨none⟩ Except.ok
    (fun _ _ => InsertOutcome.otherError "net") (Or.inl rfl)

/-- C9 (implicit): validation precedes authentication.  A request missing
`start_time` or `end_time` gets status 400 whatever the token store holds,
in particular when the token file does not exist at all; it is never a 500. -/
theorem C9_validation_before_auth (data : SchedulingRequest) (fs : FS)
    (refresh : Credentials → Except String Credentials)
    (insert : String → JVal → InsertOutcome)
    (h : data.start_time = none ∨ data.end_time = none) :
    (schedule_appointment data fs refresh insert).1.status = 400 ∧
    (schedule_appointment data ⟨none⟩ refresh insert).1.status = 400 ∧
    (schedule_appointment data fs refresh insert).1.status ≠ 500 := by
  have hf : pyFalsy data.start_time = true ∨ pyFalsy data.end_time = true := by
    rcases h with h | h
    · exact Or.inl (by rw [h]; rfl)
    · exact Or.inr (by rw [h]; rfl)
  rw [missing_field_response data fs refresh insert hf,
    missing_field_response data ⟨none⟩ refresh insert hf]
  exact ⟨rfl, rfl, by decide⟩

/-- Witness for C9 at a concrete request with no `end_time` and no token file. -/
theorem C9_validation_before_auth_witness :
    (schedule_appointment ⟨none, some "2024-01-01T10:00:00", none⟩ ⟨none⟩
        Except.ok (fun _ _ => InsertOutcome.otherError "net")).1.status = 400 :=
  (C9_validation_before_auth ⟨none, some "2024-01-01T10:00:00", none⟩ ⟨none⟩
    Except.ok (fun _ _ => InsertOutcome.otherError "net") (Or.inr rfl)).1

/-- C10 (implicit): an empty-string `start_time` or `end_time` is treated
exactly like an absent one — the handler result is identical to the result
for the request with the field removed, and it is the 400 rejection. -/
theorem C10_empty_string_as_missing (summ s e : Option String) (fs : FS)
    (refresh : Credentials → Except String Credentials)
    (insert : String → JVal → InsertOutcome) :
    (schedule_appointment ⟨summ, some "", e⟩ fs refresh insert =
      schedule_appointment ⟨summ, none, e⟩ fs refresh insert) ∧
    (schedule_appointment ⟨summ, s, some ""⟩ fs refresh insert =
      schedule_appointment ⟨summ, s, none⟩ fs refresh insert) ∧
    (schedule_appointment ⟨summ, some "", e⟩ fs refresh insert).1.status = 400 ∧
    (schedule_appointment ⟨summ, s, some ""⟩ fs refresh insert).1.status = 400 := by
  have h1 := missing_field_response ⟨summ, some "", e⟩ fs refresh insert (Or.inl rfl)
  have h2 := missing_field_response ⟨summ, s, some ""⟩ fs refresh insert (Or.inr rfl)
  have h3 := missing_field_response ⟨summ, none, e⟩ fs refresh insert (Or.inl rfl)
  have h4 := missing_field_response ⟨summ, s, none⟩ fs refresh insert (Or.inr rfl)
  rw [h1, h2, h3, h4]
  exact ⟨rfl, rfl, rfl, rfl⟩

/-- C3 counterexample: with no token file, `get_calendar_service` fails, but
the exception it raises carries the message "Authentication required.
Please run the local auth flow first.", not "no valid token" as claimed. -/
theorem C3_message_counterexample :
    (get_calendar_service ⟨none⟩ Except.ok).1 = Except.error authRequiredMsg ∧
    authRequiredMsg ≠ "no valid token" := by
  exact ⟨rfl, by decide⟩

/-- C3 amended: when no valid token is loadable and the refresh branch is
unavailable, `get_calendar_service` raises a plain `Exception` whose message
is "Authentication required. Please run the local auth flow first."; a
valid loaded token yields a service built from it, and an invalid expired
token with a refresh token yields the outcome of the refresh. -/
theorem C3_service_or_auth_error (fs : FS)
    (refresh : Credentials → Except String Credentials) :
    (noValidNoRefresh fs →
      (get_calendar_service fs refresh).1 = Except.error authRequiredMsg) ∧
    (∀ c, fs.tokenFile = some c → c.valid = true →
      (get_calendar_service fs refresh).1 = Except.ok c) ∧
    (∀ c, fs.tokenFile = some c → c.valid = false → c.expired = true →
      pyFalsy c.refresh_token = false →
      (get_calendar_service fs refresh).1 = refresh c) := by
  refine ⟨fun h => ?_, fun c hc hv => ?_, fun c hc hv he hr => ?_⟩
  · rcases h with h | ⟨c, hc, hv, hcase⟩
    · simp [get_calendar_service, h]
    · rcases hcase with hcase | hcase <;>
        simp [get_calendar_service, hc, hv, hcase]
  · simp [get_calendar_service, hc, hv]
  · simp [get_calendar_service, hc, hv, he, hr]

/-- Witness for C3 amended, at a store with no token file. -/
theorem C3_service_or_auth_error_witness :
    (get_calendar_service ⟨none⟩ Except.ok).1 = Except.error authRequiredMsg :=
  (C3_service_or_auth_error ⟨none⟩ Except.ok).1 (Or.inl rfl)

/-- C8: on the refresh path (token file holds invalid, expired credentials
with a refresh token) `get_calendar_service` returns the refreshed
credentials but performs no write: the filesystem state it returns is
exactly the one it received. -/
theorem C8_refresh_not_persisted (fs : FS)
    (refresh : Credentials → Except String Credentials) (c : Credentials)
    (hc : fs.tokenFile = some c) (hv : c.valid = false)
    (he : c.expired = true) (hr : pyFalsy c.refresh_token = false) :
    (get_calendar_service fs refresh).2 = fs ∧
    (get_calendar_service fs refresh).1 = refresh c := by
  refine ⟨rfl, ?_⟩
  simp [get_calendar_service, hc, hv, he, hr]

/-- Witness for C8 at a concrete expired token with a refresh token. -/
theorem C8_refresh_not_persisted_witness :
    (get_calendar_service ⟨some ⟨false, true, some "rt"⟩⟩
        (fun c => Except.ok { c with valid := true, expired := false })).2 =
      ⟨some ⟨false, true, some "rt"⟩⟩ :=
  (C8_refresh_not_persisted ⟨some ⟨false, true, some "rt"⟩⟩
    (fun c => Except.ok { c with valid := true, expired := false })
    ⟨false, true, some "rt"⟩ rfl rfl rfl rfl).1

/-- Helper: with both time fields present and non-empty, `get_calendar_service`
succeeding means the handler makes exactly one insert call, on calendar
"primary", with the body built by `buildEvent`. -/
theorem wellformed_insert_trace (summ : Option String) (st et : String)
    (fs : FS) (refresh : Credentials → Except String Credentials)
    (insert : String → JVal → InsertOutcome)
    (hst : st.isEmpty = false) (het : et.isEmpty = false)
    (c : Credentials) (hc : fs.tokenFile = some c) (hv : c.valid = true) :
    (schedule_appointment ⟨summ, some st, some et⟩ fs refresh insert).2 =
      [("primary", buildEvent (summ.getD "New AI Agent Consultation") st et)] := by
  have hsvc : (get_calendar_service fs refresh).1 = Except.ok c := by
    simp [get_calendar_service, hc, hv]
  simp only [schedule_appointment, hsvc, hst, het, Bool.or_self, Bool.false_eq_true,
    if_false]
  cases insert "primary" (buildEvent (summ.getD "New AI Agent Consultation") st et) <;>
    rfl

/-- C2: a well-formed request processed with a valid stored token issues
exactly one external insert call; its body carries the request's
`start_time`/`end_time` under `start.dateTime`/`end.dateTime`, the fixed
timezone "America/New_York" on both, the fixed location and description
strings, and exactly the two fixed reminder overrides (email at 1440
minutes, popup at 10 minutes). -/
theorem C2_insert_body (summ : Option String) (st et : String)
    (fs : FS) (refresh : Credentials → Except String Credentials)
    (insert : String → JVal → InsertOutcome)
    (hst : st.isEmpty = false) (het : et.isEmpty = false)
    (c : Credentials) (hc : fs.tokenFile = some c) (hv : c.valid = true) :
    (schedule_appointment ⟨summ, some st, some et⟩ fs refresh insert).2 =
      [("primary", buildEvent (summ.getD "New AI Agent Consultation") st et)] ∧
    (∀ body, body = buildEvent (summ.getD "New AI Agent Consultation") st et →
      jGet (jGet body "start") "dateTime" = JVal.str st ∧
      jGet (jGet body "start") "timeZone" = JVal.str "America/New_York" ∧
      jGet (jGet body "end") "dateTime" = JVal.str et ∧
      jGet (jGet body "end") "timeZone" = JVal.str "America/New_York" ∧
      jGet body "location" = JVal.str "Client Call" ∧
      jGet body "description" = JVal.str "Scheduled by AdiuvansAI Agent." ∧
      jGet (jGet body "reminders") "overrides" = JVal.arr [
        JVal.obj [("method", JVal.str "email"), ("minutes", JVal.num 1440)],
        JVal.obj [("method", JVal.str "popup"), ("minutes", JVal.num 10)]]) := by
  refine ⟨wellformed_insert_trace summ st et fs refresh insert hst het c hc hv,
    fun body hb => ?_⟩
  subst hb
  exact ⟨rfl, rfl, rfl, rfl, rfl, rfl, rfl⟩

/-- Witness for C2 at the spec's example request with a valid stored token. -/
theorem C2_insert_body_witness :
    (schedule_appointment
        ⟨some "Consult", some "2024-01-01T10:00:00", some "2024-01-01T11:00:00"⟩
        ⟨some ⟨true, false, some "rt"⟩⟩ Except.ok
        (fun _ _ => InsertOutcome.created (JVal.obj [("htmlLink", JVal.str "L")]))).2 =
      [("primary", buildEvent "Consult" "2024-01-01T10:00:00" "2024-01-01T11:00:00")] :=
  (C2_insert_body (some "Consult") "2024-01-01T10:00:00" "2024-01-01T11:00:00"
    ⟨some ⟨true, false, some "rt"⟩⟩ Except.ok
    (fun _ _ => InsertOutcome.created (JVal.obj [("htmlLink", JVal.str "L")]))
    rfl rfl ⟨true, false, some "rt"⟩ rfl rfl).1

/-- C4: a well-formed request when no token file exists (so no refresh is
possible) gets a 500 whose error message is the authentication message, and
no insert call occurs.  The message is authentication-related: it starts
with the word "Authentication". -/
theorem C4_no_token_500 (summ : Option String) (st et : String)
    (refresh : Credentials → Except String Credentials)
    (insert : String → JVal → InsertOutcome)
    (hst : st.isEmpty = false) (het : et.isEmpty = false) :
    schedule_appointment ⟨summ, some st, some et⟩ ⟨none⟩ refresh insert =
      (⟨500, jsonError authRequiredMsg⟩, []) ∧
    "Authentication".data.isPrefixOf authRequiredMsg.data = true := by
  refine ⟨?_, by decide⟩
  simp only [schedule_appointment, get_calendar_service, hst, het, Bool.or_self,
    Bool.false_eq_true, if_false]

/-- Witness for C4 at the spec's example request against an empty store. -/
theorem C4_no_token_500_witness :
    schedule_appointment
        ⟨some "Consult", some "2024-01-01T10:00:00", some "2024-01-01T11:00:00"⟩
        ⟨none⟩ Except.ok (fun _ _ => InsertOutcome.otherError "net") =
      (⟨500, jsonError authRequiredMsg⟩, []) :=
  (C4_no_token_500 (some "Consult") "2024-01-01T10:00:00" "2024-01-01T11:00:00"
    Except.ok (fun _ _ => InsertOutcome.otherError "net") rfl rfl).1

/-- C5: when the external insert raises a provider-side `HttpError`, the
handler returns 500 with an error field holding the provider's decoded
error body (prefixed by "Google Calendar API Error: "); when it raises any
other exception, the handler returns 500 with the exception's string form. -/
theorem C5_insert_error_500 (summ : Option String) (st et content msg : String)
    (fs : FS) (refresh : Credentials → Except String Credentials)
    (hst : st.isEmpty = false) (het : et.isEmpty = false)
    (c : Credentials) (hc : fs.tokenFile = some c) (hv : c.valid = true) :
    (schedule_appointment ⟨summ, some st, some et⟩ fs refresh
        (fun _ _ => InsertOutcome.httpError content)).1 =
      ⟨500, jsonError ("Google Calendar API Error: " ++ content)⟩ ∧
    (schedule_appointment ⟨summ, some st, some et⟩ fs refresh
        (fun _ _ => InsertOutcome.otherError msg)).1 =
      ⟨500, jsonError msg⟩ := by
  have hsvc : (get_calendar_service fs refresh).1 = Except.ok c := by
    simp [get_calendar_service, hc, hv]
  constructor <;>
    simp only [schedule_appointment, hsvc, hst, het, Bool.or_self,
      Bool.false_eq_true, if_false]

/-- Witness for C5 at a concrete request, provider error body and message. -/
theorem C5_insert_error_500_witness :
    (schedule_appointment
        ⟨none, some "2024-01-01T10:00:00", some "2024-01-01T11:00:00"⟩
        ⟨some ⟨true, false, none⟩⟩ Except.ok
        (fun _ _ => InsertOutcome.httpError "quota exceeded")).1 =
      ⟨500, jsonError "Google Calendar API Error: quota exceeded"⟩ :=
  (C5_insert_error_500 none "2024-01-01T10:00:00" "2024-01-01T11:00:00"
    "quota exceeded" "boom" ⟨some ⟨true, false, none⟩⟩ Except.ok rfl rfl
    ⟨true, false, none⟩ rfl rfl).1

/-- C6: when the external insert succeeds, the handler returns 200 with a
body holding status "success", the fixed message, and an event_link taken
from the created event's `htmlLink` field. -/
theorem C6_success_200 (summ : Option String) (st et : String) (ev : JVal)
    (fs : FS) (refresh : Credentials → Except String Credentials)
    (hst : st.isEmpty = false) (het : et.isEmpty = false)
    (c : Credentials) (hc : fs.tokenFile = some c) (hv : c.valid = true) :
    (schedule_appointment ⟨summ, some st, some et⟩ fs refresh
        (fun _ _ => InsertOutcome.created ev)).1 =
      ⟨200, JVal.obj [
        ("status", JVal.str "success"),
        ("message", JVal.str "Appointment scheduled successfully."),
        ("event_link", jGet ev "htmlLink")]⟩ := by
  have hsvc : (get_calendar_service fs refresh).1 = Except.ok c := by
    simp [get_calendar_service, hc, hv]
  simp only [schedule_appointment, hsvc, hst, het, Bool.or_self,
    Bool.false_eq_true, if_false]

/-- Witness for C6 at a concrete request and created event. -/
theorem C6_success_200_witness :
    (schedule_appointment
        ⟨none, some "2024-01-01T10:00:00", some "2024-01-01T11:00:00"⟩
        ⟨some ⟨true, false, none⟩⟩ Except.ok
        (fun _ _ => InsertOutcome.created
          (JVal.obj [("htmlLink", JVal.str "https://cal/e1")]))).1 =
      ⟨200, JVal.obj [
        ("status", JVal.str "success"),
        ("message", JVal.str "Appointment scheduled successfully."),
        ("event_link", JVal.str "https://cal/e1")]⟩ :=
  C6_success_200 none "2024-01-01T10:00:00" "2024-01-01T11:00:00"
    (JVal.obj [("htmlLink", JVal.str "https://cal/e1")])
    ⟨some ⟨true, false, none⟩⟩ Except.ok rfl rfl ⟨true, false, none⟩ rfl rfl

/-- C7: a callback request with no `code` query parameter returns 400 with
the "Authorization code not found." page, performs no token exchange, and
leaves the token file untouched. -/
theorem C7_callback_no_code (fetchToken : String → Except String String)
    (fs : CbFS) :
    oauth2callback_render none fetchToken fs =
      (⟨400, JVal.str "Authorization code not found."⟩, fs, false) := rfl

end CalendarServer
